import Mathlib

/-!
Shallow embedding of the frourio-framework-template backend framework
(`src/backend-api/@frouvel/kaname` and the configuration module), together
with proofs about its error taxonomy, Problem Details conversion, HTTP
response helpers, database manager, DI container, and config helpers.

JavaScript runtime values are modelled by `JsValue`; JS objects and `Map`s
are association lists in insertion order, with property assignment /
`Map.set` updating an existing key in place and appending otherwise, which
matches the JS semantics for plain data objects (prototype-inherited
properties are not modelled).
-/

/-- A JavaScript runtime value, restricted to the JSON-like data the
framework manipulates (plus `undefined`). -/
inductive JsValue : Type where
  | vUndefined : JsValue
  | vNull : JsValue
  | vBool : Bool → JsValue
  | vNum : Int → JsValue
  | vStr : String → JsValue
  | vArr : List JsValue → JsValue
  | vObj : List (String × JsValue) → JsValue
deriving Repr

/-- Association-list lookup: the value stored under `k`, if any.
Models `map.get(k)` / `obj[k]` (for present keys) / the `k in obj` test. -/
def assocGet {α : Type} : List (String × α) → String → Option α
  | [], _ => none
  | p :: rest, k => if p.1 = k then some p.2 else assocGet rest k

/-- Association-list update: JS property assignment / `Map.set`, which
overwrites an existing key in place and appends a new key at the end. -/
def assocSet {α : Type} : List (String × α) → String → α → List (String × α)
  | [], k, v => [(k, v)]
  | p :: rest, k, v => if p.1 = k then (k, v) :: rest else p :: assocSet rest k v

/-- Key-presence test, models `map.has(k)` / `k in obj`. -/
def assocHas {α : Type} (l : List (String × α)) (k : String) : Bool :=
  (assocGet l k).isSome

theorem assocGet_assocSet_same {α : Type} (l : List (String × α)) (k : String) (v : α) :
    assocGet (assocSet l k v) k = some v := by
  induction l with
  | nil => simp [assocSet, assocGet]
  | cons p rest ih =>
    by_cases h : p.1 = k
    · simp [assocSet, assocGet, h]
    · simp [assocSet, assocGet, h, ih]

theorem assocGet_assocSet_ne {α : Type} (l : List (String × α)) (k k2 : String) (v : α)
    (h : k2 ≠ k) : assocGet (assocSet l k2 v) k = assocGet l k := by
  induction l with
  | nil => simp [assocSet, assocGet, h]
  | cons p rest ih =>
    by_cases hp : p.1 = k2
    · simp [assocSet, assocGet, hp, h]
    · simp [assocSet, assocGet, hp, ih]

theorem assocHas_assocSet {α : Type} (l : List (String × α)) (k k2 : String) (v : α)
    (h : assocHas l k = true) : assocHas (assocSet l k2 v) k = true := by
  by_cases hk : k2 = k
  · subst hk; simp [assocHas, assocGet_assocSet_same]
  · simpa [assocHas, assocGet_assocSet_ne l k k2 v hk] using h

/-- Folding a list of key/value pairs into an object with repeated
assignment (`Object.entries(x).forEach(([k, v]) => o[k] = v)`). -/
def assignAll (o : List (String × JsValue)) (l : List (String × JsValue)) :
    List (String × JsValue) :=
  l.foldl (fun acc p => assocSet acc p.1 p.2) o

theorem assocGet_assignAll_not_mem (l : List (String × JsValue)) (o : List (String × JsValue))
    (k : String) (h : ∀ p ∈ l, p.1 ≠ k) :
    assocGet (assignAll o l) k = assocGet o k := by
  induction l generalizing o with
  | nil => simp [assignAll]
  | cons p rest ih =>
    have hp : p.1 ≠ k := h p (List.mem_cons_self p rest)
    have hrest : ∀ q ∈ rest, q.1 ≠ k := fun q hq => h q (List.mem_cons_of_mem p hq)
    simp only [assignAll, List.foldl_cons]
    rw [show (rest.foldl (fun acc q => assocSet acc q.1 q.2) (assocSet o p.1 p.2)) =
        assignAll (assocSet o p.1 p.2) rest from rfl]
    rw [ih (assocSet o p.1 p.2) hrest, assocGet_assocSet_ne o k p.1 p.2 hp]

theorem assocHas_assignAll (l : List (String × JsValue)) (o : List (String × JsValue))
    (k : String) (h : assocHas o k = true) : assocHas (assignAll o l) k = true := by
  induction l generalizing o with
  | nil => simpa [assignAll] using h
  | cons p rest ih =>
    simp only [assignAll, List.foldl_cons]
    exact ih (assocSet o p.1 p.2) (assocHas_assocSet o k p.1 p.2 h)

/-- JS string truthiness of an optional string: `undefined` and the empty
string are falsy. `strOr x y` models `x || y` for `x : string | undefined`. -/
def strOr (x : Option String) (y : String) : String :=
  match x with
  | some s => if s = "" then y else s
  | none => y

-- ===========================================================================
-- Error taxonomy (src/backend-api/@frouvel/kaname/error/FrourioFrameworkError.ts)
-- ===========================================================================

/-- The `ErrorCode` enum. -/
inductive ErrorCode : Type where
  | INTERNAL_SERVER_ERROR
  | VALIDATION_ERROR
  | NOT_FOUND
  | UNAUTHORIZED
  | FORBIDDEN
  | BAD_REQUEST
  | USER_ALREADY_EXISTS
  | USER_NOT_FOUND
  | INVALID_CREDENTIALS
  | USER_NOT_VERIFIED
  | WEAK_PASSWORD
  | INVALID_TOKEN
  | TOKEN_EXPIRED
  | ADMIN_NOT_FOUND
  | ADMIN_ALREADY_EXISTS
  | INSUFFICIENT_PERMISSIONS
  | EMAIL_SEND_FAILED
  | INVALID_EMAIL_FORMAT
  | DATABASE_NOT_INITIALIZED
  | DATABASE_CONNECTION_NOT_CONFIGURED
  | DATABASE_UNSUPPORTED_DRIVER
  | DATABASE_CLIENT_UNAVAILABLE
  | DATABASE_CLIENT_CREATION_FAILED
deriving Repr, DecidableEq

/-- The string value of each `ErrorCode` enum member (each member's value is
its own name). -/
def errorCodeName : ErrorCode → String
  | .INTERNAL_SERVER_ERROR => "INTERNAL_SERVER_ERROR"
  | .VALIDATION_ERROR => "VALIDATION_ERROR"
  | .NOT_FOUND => "NOT_FOUND"
  | .UNAUTHORIZED => "UNAUTHORIZED"
  | .FORBIDDEN => "FORBIDDEN"
  | .BAD_REQUEST => "BAD_REQUEST"
  | .USER_ALREADY_EXISTS => "USER_ALREADY_EXISTS"
  | .USER_NOT_FOUND => "USER_NOT_FOUND"
  | .INVALID_CREDENTIALS => "INVALID_CREDENTIALS"
  | .USER_NOT_VERIFIED => "USER_NOT_VERIFIED"
  | .WEAK_PASSWORD => "WEAK_PASSWORD"
  | .INVALID_TOKEN => "INVALID_TOKEN"
  | .TOKEN_EXPIRED => "TOKEN_EXPIRED"
  | .ADMIN_NOT_FOUND => "ADMIN_NOT_FOUND"
  | .ADMIN_ALREADY_EXISTS => "ADMIN_ALREADY_EXISTS"
  | .INSUFFICIENT_PERMISSIONS => "INSUFFICIENT_PERMISSIONS"
  | .EMAIL_SEND_FAILED => "EMAIL_SEND_FAILED"
  | .INVALID_EMAIL_FORMAT => "INVALID_EMAIL_FORMAT"
  | .DATABASE_NOT_INITIALIZED => "DATABASE_NOT_INITIALIZED"
  | .DATABASE_CONNECTION_NOT_CONFIGURED => "DATABASE_CONNECTION_NOT_CONFIGURED"
  | .DATABASE_UNSUPPORTED_DRIVER => "DATABASE_UNSUPPORTED_DRIVER"
  | .DATABASE_CLIENT_UNAVAILABLE => "DATABASE_CLIENT_UNAVAILABLE"
  | .DATABASE_CLIENT_CREATION_FAILED => "DATABASE_CLIENT_CREATION_FAILED"

/-- The `ErrorCodeToHttpStatus` lookup table. -/
def ErrorCodeToHttpStatus : ErrorCode → Nat
  | .INTERNAL_SERVER_ERROR => 500
  | .VALIDATION_ERROR => 400
  | .NOT_FOUND => 404
  | .UNAUTHORIZED => 401
  | .FORBIDDEN => 403
  | .BAD_REQUEST => 400
  | .USER_ALREADY_EXISTS => 409
  | .USER_NOT_FOUND => 404
  | .INVALID_CREDENTIALS => 401
  | .USER_NOT_VERIFIED => 401
  | .WEAK_PASSWORD => 400
  | .INVALID_TOKEN => 401
  | .TOKEN_EXPIRED => 401
  | .ADMIN_NOT_FOUND => 404
  | .ADMIN_ALREADY_EXISTS => 409
  | .INSUFFICIENT_PERMISSIONS => 403
  | .EMAIL_SEND_FAILED => 500
  | .INVALID_EMAIL_FORMAT => 400
  | .DATABASE_NOT_INITIALIZED => 500
  | .DATABASE_CONNECTION_NOT_CONFIGURED => 500
  | .DATABASE_UNSUPPORTED_DRIVER => 500
  | .DATABASE_CLIENT_UNAVAILABLE => 500
  | .DATABASE_CLIENT_CREATION_FAILED => 500

/-- The RFC9457 default problem type URI (`DEFAULT_PROBLEM_TYPE`, re-exported
from the shared Problem Details types module). Its concrete value is
immaterial to every theorem below. -/
def DEFAULT_PROBLEM_TYPE : String := "about:blank"

/-- The observable data of an `AbstractFrourioFrameworkError` instance:
`message`, `code` (the constructor also derives `httpStatusCode` from the
`ErrorCodeToHttpStatus` table, see `httpStatusCode` below), the optional
`details` payload, the optional `instance` member (here `instanceVal`,
because `instance` is a Lean keyword), the optional `typeUri`, and the ISO
rendering of the `timestamp` captured at construction time. -/
structure FrourioFrameworkErrorData where
  message : String
  code : ErrorCode
  details : Option (List (String × JsValue)) := none
  instanceVal : Option String := none
  typeUri : Option String := none
  timestampIso : String := ""

/-- `this.httpStatusCode`, set by the constructor from the lookup table. -/
def httpStatusCode (e : FrourioFrameworkErrorData) : Nat :=
  ErrorCodeToHttpStatus e.code

/-- Stage 1 of `toProblemDetails`: the object literal with the four
standard members (`this.typeUri || DEFAULT_PROBLEM_TYPE` is string
truthiness). -/
def problemBase (e : FrourioFrameworkErrorData) : List (String × JsValue) :=
  [("type", .vStr (strOr e.typeUri DEFAULT_PROBLEM_TYPE)),
   ("title", .vStr (errorCodeName e.code)),
   ("status", .vNum (httpStatusCode e : Nat)),
   ("detail", .vStr e.message)]

/-- Stage 2 of `toProblemDetails`: `if (this.instance) { ... }` — the
`instance` member is only assigned for a truthy (non-empty) string. -/
def problemWithInstance (e : FrourioFrameworkErrorData) : List (String × JsValue) :=
  match e.instanceVal with
  | some i => if i = "" then problemBase e else assocSet (problemBase e) "instance" (.vStr i)
  | none => problemBase e

/-- Stage 3 of `toProblemDetails`: the `code` and `timestamp` extension
members. -/
def problemCore (e : FrourioFrameworkErrorData) : List (String × JsValue) :=
  assocSet (assocSet (problemWithInstance e) "code" (.vStr (errorCodeName e.code)))
    "timestamp" (.vStr e.timestampIso)

/-- `AbstractFrourioFrameworkError.toProblemDetails`: the staged object
build-up above followed by `Object.entries(this.details).forEach(...)`,
which assigns every details entry into the object (overwriting members
with the same name). -/
def toProblemDetails (e : FrourioFrameworkErrorData) : List (String × JsValue) :=
  match e.details with
  | some ds => assignAll (problemCore e) ds
  | none => problemCore e

/-- `AbstractFrourioFrameworkError.isClientError`. -/
def isClientError (e : FrourioFrameworkErrorData) : Bool :=
  decide (400 ≤ httpStatusCode e ∧ httpStatusCode e < 500)

/-- `AbstractFrourioFrameworkError.isServerError`. -/
def isServerError (e : FrourioFrameworkErrorData) : Bool :=
  decide (500 ≤ httpStatusCode e)

-- ===========================================================================
-- HTTP response helpers (src/backend-api/@frouvel/kaname/http/ApiResponse.ts)
-- ===========================================================================

/-- The options accepted by `createProblemDetails`
(`CreateProblemDetailsOptions`): `type`, `instance` and `extensions` are
optional (the `instance` option is `instanceVal` here, `instance` being a
Lean keyword). -/
structure CreateProblemDetailsOptions where
  type : Option String := none
  title : String
  status : Nat
  detail : String
  instanceVal : Option String := none
  extensions : Option (List (String × JsValue)) := none

/-- `createProblemDetails`. -/
def createProblemDetails (o : CreateProblemDetailsOptions) : List (String × JsValue) :=
  let pd0 : List (String × JsValue) :=
    [("type", .vStr (strOr o.type DEFAULT_PROBLEM_TYPE)),
     ("title", .vStr o.title),
     ("status", .vNum (o.status : Nat)),
     ("detail", .vStr o.detail)]
  let pd1 := match o.instanceVal with
    | some i => if i = "" then pd0 else assocSet pd0 "instance" (.vStr i)
    | none => pd0
  match o.extensions with
  | some exts => assignAll pd1 exts
  | none => pd1

/-- The `unknown` error value passed to the error helpers: a framework
error, a plain JS `Error` (observed through its `name` and `message`), or
any other runtime value. -/
inductive ErrValue : Type where
  | frameworkError (e : FrourioFrameworkErrorData)
  | jsError (name message : String)
  | otherValue (v : JsValue)

/-- JS `String(x)` conversion, modelled for the JSON-like values of
`JsValue` (arrays join their elements with commas). -/
def jsToString : JsValue → String
  | .vUndefined => "undefined"
  | .vNull => "null"
  | .vBool b => if b then "true" else "false"
  | .vNum n => toString n
  | .vStr s => s
  | .vArr es => String.intercalate "," (es.attach.map (fun p => jsToString p.1))
  | .vObj _ => "[object Object]"
termination_by v => sizeOf v
decreasing_by
  have := List.sizeOf_lt_of_mem p.2
  simp_wf
  omega

/-- `errorToProblemDetails`. -/
def errorToProblemDetails : ErrValue → List (String × JsValue)
  | .frameworkError e => toProblemDetails e
  | .jsError nm msg =>
    createProblemDetails
      { status := 500, title := "Internal Server Error",
        detail := if msg = "" then "An unexpected error occurred" else msg,
        extensions := some [("errorName", .vStr nm)] }
  | .otherValue v =>
    createProblemDetails
      { status := 500, title := "Internal Server Error",
        detail := "An unexpected error occurred",
        extensions := some [("error", .vStr (jsToString v))] }

/-- The `{ status, body }` record returned by the response helpers. The
`status` field is kept as a raw `JsValue` because at runtime a framework
error whose `details` payload overwrites the `status` member can make it a
non-number. -/
structure HttpResponse where
  status : JsValue
  body : List (String × JsValue)
deriving Repr

/-- A `JsValue` is nullish (`null` or `undefined`), as tested by `??`. -/
def isNullish : Option JsValue → Bool
  | none => true
  | some .vNull => true
  | some .vUndefined => true
  | some _ => false

/-- `returnProblemDetails`: converts the error and takes the body's
`status` member as HTTP status, falling back to `defaultStatus` only when
that member is nullish or absent. -/
def returnProblemDetails (error : ErrValue) (defaultStatus : Nat) : HttpResponse :=
  let pd := errorToProblemDetails error
  let st := if isNullish (assocGet pd "status") then JsValue.vNum (defaultStatus : Nat)
    else ((assocGet pd "status").getD .vUndefined)
  { status := st, body := pd }

/-- `ApiResponse.error` (the `defaultStatus` parameter defaults to 500). -/
def ApiResponse_error (error : ErrValue) : HttpResponse :=
  returnProblemDetails error 500

/-- `ApiResponse.method.get` (`returnGetError`, default 404). -/
def returnGetError (error : ErrValue) : HttpResponse :=
  returnProblemDetails error 404

/-- `ApiResponse.method.post` (`returnPostError`, default 500). -/
def returnPostError (error : ErrValue) : HttpResponse :=
  returnProblemDetails error 500

/-- `ApiResponse.method.put` (`returnPutError`, default 500). -/
def returnPutError (error : ErrValue) : HttpResponse :=
  returnProblemDetails error 500

/-- `ApiResponse.method.patch` (`returnPatchError`, default 403). -/
def returnPatchError (error : ErrValue) : HttpResponse :=
  returnProblemDetails error 403

/-- `ApiResponse.method.delete` (`returnDeleteError`, default 500). -/
def returnDeleteError (error : ErrValue) : HttpResponse :=
  returnProblemDetails error 500

-- ===========================================================================
-- Database layer (src/backend-api/@frouvel/kaname/database)
-- ===========================================================================

/-- `ConnectionConfig.connection` (host/port credentials, used by the
Drizzle driver). -/
structure ConnectionDetails where
  host : String
  port : Nat
  user : String
  password : String
  database : String
deriving Repr

/-- `ConnectionConfig.pool`. -/
structure PoolConfig where
  min : Option Nat := none
  max : Option Nat := none
  idleTimeoutMillis : Option Nat := none
deriving Repr

/-- `ConnectionConfig`: only `driver` is mandatory; `registerClient` stores
a config with just the driver name. -/
structure ConnectionConfig where
  driver : String
  url : Option String := none
  connection : Option ConnectionDetails := none
  pool : Option PoolConfig := none
deriving Repr

/-- The errors thrown by the database layer (`DatabaseErrors.ts`); each
class extends `AbstractFrourioFrameworkError` with a fixed code. -/
inductive DbError : Type where
  | notInitialized
  | connectionNotConfigured (name : String)
  | unsupportedDriver (driver : String)
  | clientUnavailable (connection driver : String)
  | clientCreationFailed (driver : String) (cause : JsValue)
deriving Repr

/-- The `DatabaseDriver` interface. `createClient` may throw an arbitrary
value (modelled as `Except JsValue`), and `disconnect` may fail. Clients
themselves are opaque runtime objects, modelled as `JsValue`. -/
structure DatabaseDriver where
  createClient : ConnectionConfig → String → Except JsValue JsValue
  disconnect : JsValue → Except JsValue Unit

/-- The mutable state of a `DatabaseManager` instance: the default
connection name, the `connections` / `clients` / `drivers` maps and the
`connectedClients` set. -/
structure DatabaseManager where
  defaultConnection : String
  connections : List (String × ConnectionConfig) := []
  clients : List (String × JsValue) := []
  connectedClients : List String := []
  drivers : List (String × DatabaseDriver) := []

/-- `Set.add`: insert a name if not already present. -/
def addToSet (l : List String) (x : String) : List String :=
  if x ∈ l then l else l ++ [x]

/-- `Set.delete`. -/
def removeFromSet (l : List String) (x : String) : List String :=
  l.filter (fun y => y ≠ x)

/-- `connection || this.defaultConnection`: JS string truthiness, so both an
omitted argument and the empty string resolve to the default connection. -/
def DatabaseManager.resolveName (s : DatabaseManager) (connection : Option String) : String :=
  match connection with
  | some c => if c = "" then s.defaultConnection else c
  | none => s.defaultConnection

/-- `DatabaseManager.getDriver` (private): a single lookup in the `drivers`
map, throwing `UnsupportedDatabaseDriverError` when absent. -/
def DatabaseManager.getDriver (s : DatabaseManager) (name : String) :
    Except DbError DatabaseDriver :=
  match assocGet s.drivers name with
  | some d => .ok d
  | none => .error (.unsupportedDriver name)

/-- `DatabaseManager.createClient` (private): resolve the driver, then call
its `createClient`, wrapping any thrown value in
`DatabaseClientCreationError`. -/
def DatabaseManager.createClient (s : DatabaseManager) (name : String)
    (config : ConnectionConfig) : Except DbError JsValue :=
  match s.getDriver config.driver with
  | .error er => .error er
  | .ok driver =>
    match driver.createClient config name with
    | .ok client => .ok client
    | .error cause => .error (.clientCreationFailed config.driver cause)

/-- `DatabaseManager.getOrCreateClient` (private): return the cached client
unchanged, or create one, cache it and mark the connection connected. -/
def DatabaseManager.getOrCreateClient (s : DatabaseManager) (name : String) :
    Except DbError (JsValue × DatabaseManager) :=
  match assocGet s.clients name with
  | some client => .ok (client, s)
  | none =>
    match assocGet s.connections name with
    | none => .error (.connectionNotConfigured name)
    | some config =>
      match s.createClient name config with
      | .error er => .error er
      | .ok client =>
        .ok (client,
          { s with clients := assocSet s.clients name client,
                   connectedClients := addToSet s.connectedClients name })

/-- `DatabaseManager.prisma`: `null` unless the resolved connection is
configured with the `prisma` driver; otherwise pass through to
`getOrCreateClient` (which may throw). -/
def DatabaseManager.prisma (s : DatabaseManager) (connection : Option String) :
    Except DbError (Option JsValue × DatabaseManager) :=
  let name := s.resolveName connection
  match assocGet s.connections name with
  | none => .ok (none, s)
  | some config =>
    if config.driver = "prisma" then
      match s.getOrCreateClient name with
      | .ok (client, s2) => .ok (some client, s2)
      | .error er => .error er
    else .ok (none, s)

/-- `DatabaseManager.drizzle`: same shape as `prisma` for the `drizzle`
driver. -/
def DatabaseManager.drizzle (s : DatabaseManager) (connection : Option String) :
    Except DbError (Option JsValue × DatabaseManager) :=
  let name := s.resolveName connection
  match assocGet s.connections name with
  | none => .ok (none, s)
  | some config =>
    if config.driver = "drizzle" then
      match s.getOrCreateClient name with
      | .ok (client, s2) => .ok (some client, s2)
      | .error er => .error er
    else .ok (none, s)

/-- `DatabaseManager.client`. -/
def DatabaseManager.client (s : DatabaseManager) (connection : Option String) :
    Except DbError (JsValue × DatabaseManager) :=
  s.getOrCreateClient (s.resolveName connection)

/-- `DatabaseManager.transaction`, up to the point where the driver takes
over: resolves the config, the client and the driver that the callback
would run under (the callback execution itself is external ORM code). -/
def DatabaseManager.transactionResolve (s : DatabaseManager) (connection : Option String) :
    Except DbError (DatabaseDriver × JsValue × DatabaseManager) :=
  let name := s.resolveName connection
  match assocGet s.connections name with
  | none => .error (.connectionNotConfigured name)
  | some config =>
    match s.getOrCreateClient name with
    | .error er => .error er
    | .ok (client, s2) =>
      match s2.getDriver config.driver with
      | .error er => .error er
      | .ok driver => .ok (driver, client, s2)

/-- `DatabaseManager.disconnect`: missing client or config throw; the
driver resolution and `driver.disconnect` run inside `try`, so any failure
there is caught and logged, leaving the state unchanged. Only a successful
driver disconnect removes the name from `connectedClients` (the `clients`
cache is never touched). -/
def DatabaseManager.disconnect (s : DatabaseManager) (connection : Option String) :
    Except DbError DatabaseManager :=
  let name := s.resolveName connection
  match assocGet s.clients name with
  | none => .error .notInitialized
  | some client =>
    match assocGet s.connections name with
    | none => .error (.connectionNotConfigured name)
    | some config =>
      match s.getDriver config.driver with
      | .error _ => .ok s
      | .ok driver =>
        match driver.disconnect client with
        | .ok _ => .ok { s with connectedClients := removeFromSet s.connectedClients name }
        | .error _ => .ok s

/-- `DatabaseManager.isConnected`. -/
def DatabaseManager.isConnected (s : DatabaseManager) (connection : Option String) : Bool :=
  s.connectedClients.contains (s.resolveName connection)

/-- `DatabaseManager.registerClient`: throws when the driver name is not in
the `drivers` map; otherwise stores the client, a driver-only config, and
marks the connection connected. -/
def DatabaseManager.registerClient (s : DatabaseManager) (name : String) (client : JsValue)
    (driver : String) : Except DbError DatabaseManager :=
  if assocHas s.drivers driver then
    .ok { s with clients := assocSet s.clients name client,
                 connections := assocSet s.connections name { driver := driver },
                 connectedClients := addToSet s.connectedClients name }
  else .error (.unsupportedDriver driver)

/-- `DatabaseManager.registerDriver`. -/
def DatabaseManager.registerDriver (s : DatabaseManager) (name : String)
    (driver : DatabaseDriver) : DatabaseManager :=
  { s with drivers := assocSet s.drivers name driver }

/-- The `DatabaseManager` constructor: registers the built-in `prisma` and
`drizzle` drivers (passed here as parameters, since their implementations
wrap external ORM client factories) and stores the connection configs. -/
def mkDatabaseManager (dflt : String) (conns : List (String × ConnectionConfig))
    (prismaDriver drizzleDriver : DatabaseDriver) : DatabaseManager :=
  let s0 : DatabaseManager := { defaultConnection := dflt }
  let s1 := (s0.registerDriver "prisma" prismaDriver).registerDriver "drizzle" drizzleDriver
  { s1 with connections := conns.foldl (fun m p => assocSet m p.1 p.2) [] }

-- ===========================================================================
-- DI container (Application)
-- ===========================================================================

/-- Modelled from the spec: the `Application` container class itself is not
under `src/` (only its README, its `ServiceProvider` clients and the
`app.bind` / `app.singleton` / `app.make` / `app.has` call sites are).
Following the spec — "DI container: a runtime registry mapping string keys
to lazily-constructed service instances", with `bind` registering a
factory that "creates new instance each time" and `singleton` one whose
instance is created on first `make` and shared afterwards — a binding
stores the factory together with its shared flag. To make factory
invocations observable, a factory consumes a fresh invocation index (the
container's `invocations` counter). -/
structure Binding where
  factory : Nat → JsValue
  shared : Bool

/-- Modelled from the spec: the container state — registered bindings, the
cache of already-constructed singleton instances, and the invocation
counter that numbers factory runs. -/
structure Application where
  bindings : List (String × Binding) := []
  instances : List (String × JsValue) := []
  invocations : Nat := 0

/-- Modelled from the spec: `app.bind(key, factory)` registers a
non-shared binding without running the factory. -/
def Application.bind (app : Application) (key : String) (factory : Nat → JsValue) :
    Application :=
  { app with bindings := assocSet app.bindings key { factory := factory, shared := false } }

/-- Modelled from the spec: `app.singleton(key, factory)` registers a
shared binding without running the factory. -/
def Application.singleton (app : Application) (key : String) (factory : Nat → JsValue) :
    Application :=
  { app with bindings := assocSet app.bindings key { factory := factory, shared := true } }

/-- Modelled from the spec: `app.make(key)` returns the cached singleton
instance when one exists; otherwise it runs the registered factory (and,
for a shared binding, caches the constructed instance). An unregistered
key is an error. -/
def Application.make (app : Application) (key : String) :
    Except String (JsValue × Application) :=
  match assocGet app.instances key with
  | some v => .ok (v, app)
  | none =>
    match assocGet app.bindings key with
    | none => .error key
    | some b =>
      let v := b.factory app.invocations
      let app2 : Application := { app with invocations := app.invocations + 1 }
      if b.shared then
        .ok (v, { app2 with instances := assocSet app2.instances key v })
      else
        .ok (v, app2)

-- ===========================================================================
-- Configuration module (src/unnamed/part_000: defineConfig,
-- src/unnamed/part_002: config / hasConfig)
-- ===========================================================================

/-- A Zod schema, observed through its `parse` method: it either returns
the parsed value or throws (`Except`). -/
structure ZodSchema where
  parse : JsValue → Except JsValue JsValue

/-- The value returned by `defineConfig`: the parsed config object, which
`Object.assign` additionally tags with its `schema`. -/
structure DefinedConfig where
  value : JsValue
  schema : ZodSchema

/-- `defineConfig({schema, load})`: parse the loaded raw value with the
schema (propagating a validation throw) and attach the schema. -/
def defineConfig (schema : ZodSchema) (load : Unit → JsValue) :
    Except JsValue DefinedConfig :=
  match schema.parse (load ()) with
  | .ok parsed => .ok { value := parsed, schema := schema }
  | .error e => .error e

/-- Helper for `splitDot`: accumulate the current segment while scanning
the characters. -/
def splitDotAux : List Char → String → List String
  | [], acc => [acc]
  | c :: rest, acc =>
    if c = '.' then acc :: splitDotAux rest "" else splitDotAux rest (acc.push c)

/-- JS `key.split('.')`: the dot-separated segments of the key, with the
JS corner cases (an empty key yields `[""]`, adjacent or trailing dots
yield empty segments). -/
def splitDot (key : String) : List String :=
  splitDotAux key.data ""

/-- The loop guard `value && typeof value === 'object' && k in value`:
only non-null objects and arrays pass the first two tests, and `k in v` is
own-property lookup (array indices and `length` for arrays). -/
def jsHasKey : JsValue → String → Bool
  | .vObj fields, k => assocHas fields k
  | .vArr elems, k =>
    k = "length" ||
      (match k.toNat? with
       | some i => decide (i < elems.length) && toString i = k
       | none => false)
  | _, _ => false

/-- `value[k]` for a value that passed `jsHasKey` (and `undefined`
otherwise, which the loop never reads). -/
def jsGetKey : JsValue → String → JsValue
  | .vObj fields, k => (assocGet fields k).getD .vUndefined
  | .vArr elems, k =>
    if k = "length" then .vNum (elems.length : Nat)
    else
      match k.toNat? with
      | some i => elems.getD i .vUndefined
      | none => .vUndefined
  | _, _ => .vUndefined

/-- The `for (const k of keys)` loop of `config`: descend while the guard
holds, returning `defaultValue` on the first failure. -/
def configLoop : JsValue → List String → JsValue → JsValue
  | value, [], _ => value
  | value, k :: rest, dflt =>
    if jsHasKey value k then configLoop (jsGetKey value k) rest dflt else dflt

/-- `config(key, defaultValue)` over a given `config` registry object. -/
def config (configs : JsValue) (key : String) (defaultValue : JsValue) : JsValue :=
  configLoop configs (splitDot key) defaultValue

/-- The loop of `hasConfig`: `false` on the first guard failure. -/
def hasConfigLoop : JsValue → List String → Bool
  | _, [] => true
  | value, k :: rest =>
    if jsHasKey value k then hasConfigLoop (jsGetKey value k) rest else false

/-- `hasConfig(key)` over a given `config` registry object. -/
def hasConfig (configs : JsValue) (key : String) : Bool :=
  hasConfigLoop configs (splitDot key)

/-- The walk described by the claim: segment-by-segment descent returning
the reached value, or `none` as soon as a segment is absent or the current
value is not an object. -/
def configWalk : JsValue → List String → Option JsValue
  | v, [] => some v
  | v, k :: rest => if jsHasKey v k then configWalk (jsGetKey v k) rest else none

-- ===========================================================================
-- Claims
-- ===========================================================================

/-- C7: every error code in the `ErrorCode` enumeration is assigned an HTTP
status of at least 400 by `ErrorCodeToHttpStatus`, so for every framework
error exactly one of `isClientError` (status in 400 to 499) and
`isServerError` (status at least 500) returns true. -/
theorem C7_error_status_partition :
    (∀ c : ErrorCode, 400 ≤ ErrorCodeToHttpStatus c) ∧
    (∀ e : FrourioFrameworkErrorData,
      (isClientError e = true ↔ isServerError e = false)) := by
  constructor
  · intro c; cases c <;> decide
  · intro e
    have h400 : 400 ≤ httpStatusCode e := by
      cases hc : e.code <;> simp [httpStatusCode, hc, ErrorCodeToHttpStatus]
    simp only [isClientError, isServerError, decide_eq_true_eq, decide_eq_false_iff_not]
    omega

theorem configLoop_eq_configWalk (ks : List String) (v : JsValue) (d : JsValue) :
    configLoop v ks d = (configWalk v ks).getD d := by
  induction ks generalizing v with
  | nil => simp [configLoop, configWalk]
  | cons k rest ih =>
    by_cases h : jsHasKey v k
    · simp [configLoop, configWalk, h, ih]
    · simp [configLoop, configWalk, h]

theorem hasConfigLoop_eq_configWalk (ks : List String) (v : JsValue) :
    hasConfigLoop v ks = (configWalk v ks).isSome := by
  induction ks generalizing v with
  | nil => simp [hasConfigLoop, configWalk]
  | cons k rest ih =>
    by_cases h : jsHasKey v k
    · simp [hasConfigLoop, configWalk, h, ih]
    · simp [hasConfigLoop, configWalk, h]

/-- C10: `config(key, defaultValue)` splits the key on dots and walks the
registry segment by segment, returning `defaultValue` as soon as a segment
is absent or the current value is not an object, and the reached value
otherwise (even when that stored value is `undefined`); `hasConfig`
returns true exactly when the walk completes without falling back. -/
theorem C10_config_walk (configs : JsValue) (key : String) (dflt : JsValue) :
    (∀ v, configWalk configs (splitDot key) = some v → config configs key dflt = v) ∧
    (configWalk configs (splitDot key) = none → config configs key dflt = dflt) ∧
    (hasConfig configs key = true ↔ configWalk configs (splitDot key) ≠ none) := by
  refine ⟨?_, ?_, ?_⟩
  · intro v hv
    simp [config, configLoop_eq_configWalk, hv]
  · intro hv
    simp [config, configLoop_eq_configWalk, hv]
  · rw [hasConfig, hasConfigLoop_eq_configWalk, Option.isSome_iff_ne_none]

/-- Witness for C10 on a concrete registry: the key `app.name` walks to a
stored string (including through a stored `undefined` leaf for the key
`app.legacy`), and a missing segment falls back to the default. -/
theorem C10_witness :
    (configWalk (.vObj [("app", .vObj [("name", .vStr "frourio"), ("legacy", .vUndefined)])])
        (splitDot "app.name") = some (.vStr "frourio") ∧
      config (.vObj [("app", .vObj [("name", .vStr "frourio"), ("legacy", .vUndefined)])])
        "app.name" .vNull = .vStr "frourio") ∧
    (configWalk (.vObj [("app", .vObj [("name", .vStr "frourio"), ("legacy", .vUndefined)])])
        (splitDot "app.legacy") = some .vUndefined ∧
      config (.vObj [("app", .vObj [("name", .vStr "frourio"), ("legacy", .vUndefined)])])
        "app.legacy" .vNull = .vUndefined) ∧
    (configWalk (.vObj [("app", .vObj [("name", .vStr "frourio"), ("legacy", .vUndefined)])])
        (splitDot "app.missing") = none ∧
      config (.vObj [("app", .vObj [("name", .vStr "frourio"), ("legacy", .vUndefined)])])
        "app.missing" .vNull = .vNull) :=
  ⟨⟨by rfl,
    (C10_config_walk (.vObj [("app", .vObj [("name", .vStr "frourio"), ("legacy", .vUndefined)])])
      "app.name" .vNull).1 (.vStr "frourio") (by rfl)⟩,
   ⟨by rfl,
    (C10_config_walk (.vObj [("app", .vObj [("name", .vStr "frourio"), ("legacy", .vUndefined)])])
      "app.legacy" .vNull).1 .vUndefined (by rfl)⟩,
   ⟨by rfl,
    (C10_config_walk (.vObj [("app", .vObj [("name", .vStr "frourio"), ("legacy", .vUndefined)])])
      "app.missing" .vNull).2.1 (by rfl)⟩⟩

/-- C6: `defineConfig({schema, load})` returns the result of parsing the
loaded raw value with the schema, and throws exactly when the schema
rejects the loaded raw value. -/
theorem C6_defineConfig (schema : ZodSchema) (load : Unit → JsValue) :
    (∀ v, schema.parse (load ()) = .ok v →
       defineConfig schema load = .ok { value := v, schema := schema }) ∧
    (∀ e, schema.parse (load ()) = .error e →
       defineConfig schema load = .error e) := by
  constructor
  · intro v h; simp [defineConfig, h]
  · intro e h; simp [defineConfig, h]

/-- Witness for C6 with a concrete schema that rejects `null` and accepts
anything else: a passing load returns the parsed value, a failing load
throws. -/
theorem C6_witness :
    (ZodSchema.parse ⟨fun v => match v with | .vNull => .error .vNull | w => .ok w⟩
        ((fun _ => JsValue.vStr "cfg") ()) = .ok (.vStr "cfg") ∧
      defineConfig ⟨fun v => match v with | .vNull => .error .vNull | w => .ok w⟩
        (fun _ => JsValue.vStr "cfg") =
        .ok { value := .vStr "cfg",
              schema := ⟨fun v => match v with | .vNull => .error .vNull | w => .ok w⟩ }) ∧
    (ZodSchema.parse ⟨fun v => match v with | .vNull => .error .vNull | w => .ok w⟩
        ((fun _ => JsValue.vNull) ()) = .error .vNull ∧
      defineConfig ⟨fun v => match v with | .vNull => .error .vNull | w => .ok w⟩
        (fun _ => JsValue.vNull) = .error .vNull) :=
  ⟨⟨by rfl,
    (C6_defineConfig ⟨fun v => match v with | .vNull => .error .vNull | w => .ok w⟩
      (fun _ => JsValue.vStr "cfg")).1 (.vStr "cfg") (by rfl)⟩,
   ⟨by rfl,
    (C6_defineConfig ⟨fun v => match v with | .vNull => .error .vNull | w => .ok w⟩
      (fun _ => JsValue.vNull)).2 .vNull (by rfl)⟩⟩

/-- C5: the DI container maps string keys to lazily-constructed services —
`bind` and `singleton` register a factory without running it (the
invocation counter and instance cache are untouched); the factory runs
when the key is first resolved with `make`; and once a singleton instance
is cached, every `make` of that key returns it with the container state
unchanged. -/
theorem C5_container_lazy_singleton (app : Application) (key : String) (f : Nat → JsValue) :
    ((app.bind key f).invocations = app.invocations ∧
      (app.bind key f).instances = app.instances) ∧
    ((app.singleton key f).invocations = app.invocations ∧
      (app.singleton key f).instances = app.instances) ∧
    (∀ v, assocGet app.instances key = some v → app.make key = .ok (v, app)) ∧
    (assocGet app.instances key = none →
      (app.singleton key f).make key =
        .ok (f app.invocations,
          { bindings := assocSet app.bindings key { factory := f, shared := true },
            instances := assocSet app.instances key (f app.invocations),
            invocations := app.invocations + 1 })) ∧
    (assocGet app.instances key = none →
      (app.bind key f).make key =
        .ok (f app.invocations,
          { bindings := assocSet app.bindings key { factory := f, shared := false },
            instances := app.instances,
            invocations := app.invocations + 1 })) := by
  refine ⟨⟨rfl, rfl⟩, ⟨rfl, rfl⟩, ?_, ?_, ?_⟩
  · intro v hv
    simp [Application.make, hv]
  · intro hnone
    simp [Application.make, Application.singleton, hnone, assocGet_assocSet_same]
  · intro hnone
    simp [Application.make, Application.bind, hnone, assocGet_assocSet_same]

/-- Witness for C5: on the empty container, registering a singleton runs
no factory, the first `make` constructs instance number 0, and the second
`make` returns the same instance with the container unchanged. -/
theorem C5_witness :
    (assocGet (Application.instances {}) "svc" = none ∧
      (Application.singleton {} "svc" (fun n => .vNum (n : Nat))).make "svc" =
        .ok (.vNum 0,
          { bindings := [("svc", { factory := fun n => .vNum (n : Nat), shared := true })],
            instances := [("svc", .vNum 0)],
            invocations := 1 })) ∧
    (assocGet [("svc", JsValue.vNum 0)] "svc" = some (.vNum 0) ∧
      Application.make
          { bindings := [("svc", { factory := fun n => .vNum (n : Nat), shared := true })],
            instances := [("svc", .vNum 0)],
            invocations := 1 } "svc" =
        .ok (.vNum 0,
          { bindings := [("svc", { factory := fun n => .vNum (n : Nat), shared := true })],
            instances := [("svc", .vNum 0)],
            invocations := 1 })) :=
  ⟨⟨by rfl,
    by simpa using
      (C5_container_lazy_singleton {} "svc" (fun n => .vNum (n : Nat))).2.2.2.1 (by rfl)⟩,
   ⟨by rfl,
    (C5_container_lazy_singleton
        { bindings := [("svc", { factory := fun n => .vNum (n : Nat), shared := true })],
          instances := [("svc", .vNum 0)],
          invocations := 1 } "svc" (fun n => .vNum (n : Nat))).2.2.1 (.vNum 0) (by rfl)⟩⟩

/-- C2: resolving a database driver is a single lookup in the `drivers`
map — `getDriver` returns the driver registered under exactly the
requested name and throws `UnsupportedDatabaseDriverError` otherwise, with
the same behaviour surfacing through the client-creation path and through
`registerClient`; no fallback driver is ever substituted. -/
theorem C2_getDriver_lookup (s : DatabaseManager) (name : String) :
    (∀ d, assocGet s.drivers name = some d → s.getDriver name = .ok d) ∧
    (assocGet s.drivers name = none →
      s.getDriver name = .error (.unsupportedDriver name)) ∧
    (∀ nm client, assocGet s.drivers name = none →
      s.registerClient nm client name = .error (.unsupportedDriver name)) ∧
    (∀ nm c d, assocGet s.drivers name = some d →
      s.registerClient nm c name =
        .ok { s with clients := assocSet s.clients nm c,
                     connections := assocSet s.connections nm { driver := name },
                     connectedClients := addToSet s.connectedClients nm }) ∧
    (∀ nm cfg, cfg.driver = name → assocGet s.drivers name = none →
      s.createClient nm cfg = .error (.unsupportedDriver name)) := by
  refine ⟨?_, ?_, ?_, ?_, ?_⟩
  · intro d hd; simp [DatabaseManager.getDriver, hd]
  · intro h; simp [DatabaseManager.getDriver, h]
  · intro nm client h
    simp [DatabaseManager.registerClient, assocHas, h]
  · intro nm c d h
    simp [DatabaseManager.registerClient, assocHas, h]
  · intro nm cfg hdrv h
    simp [DatabaseManager.createClient, DatabaseManager.getDriver, hdrv, h]

/-- Witness for C2 on a concrete manager with only a `prisma` driver
registered: resolving `prisma` returns it, resolving `mongoose` throws
`UnsupportedDatabaseDriverError`, and so does registering a client for
driver `mongoose`. -/
theorem C2_witness :
    (assocGet (DatabaseManager.drivers
          { defaultConnection := "main",
            drivers := [("prisma", { createClient := fun _ _ => .ok .vNull,
                                     disconnect := fun _ => .ok () })] }) "mongoose" = none ∧
      DatabaseManager.getDriver
          { defaultConnection := "main",
            drivers := [("prisma", { createClient := fun _ _ => .ok .vNull,
                                     disconnect := fun _ => .ok () })] } "mongoose" =
        .error (.unsupportedDriver "mongoose") ∧
      DatabaseManager.registerClient
          { defaultConnection := "main",
            drivers := [("prisma", { createClient := fun _ _ => .ok .vNull,
                                     disconnect := fun _ => .ok () })] }
          "db" .vNull "mongoose" =
        .error (.unsupportedDriver "mongoose")) :=
  ⟨by rfl,
   (C2_getDriver_lookup
      { defaultConnection := "main",
        drivers := [("prisma", { createClient := fun _ _ => .ok .vNull,
                                 disconnect := fun _ => .ok () })] } "mongoose").2.1 (by rfl),
   (C2_getDriver_lookup
      { defaultConnection := "main",
        drivers := [("prisma", { createClient := fun _ _ => .ok .vNull,
                                 disconnect := fun _ => .ok () })] } "mongoose").2.2.1
     "db" .vNull (by rfl)⟩

/-- C9: when the resolved connection has a cached client, a configuration
and a registered driver, and the driver's `disconnect` throws, the error
is caught and `DatabaseManager.disconnect` resolves normally with the
manager state unchanged — the connection stays in the connected set and
its client stays in the cache. -/
theorem C9_disconnect_swallows_errors (s : DatabaseManager) (conn : Option String)
    (client : JsValue) (cfg : ConnectionConfig) (d : DatabaseDriver) (er : JsValue)
    (hc : assocGet s.clients (s.resolveName conn) = some client)
    (hcfg : assocGet s.connections (s.resolveName conn) = some cfg)
    (hd : s.getDriver cfg.driver = .ok d)
    (hfail : d.disconnect client = .error er) :
    s.disconnect conn = .ok s := by
  simp [DatabaseManager.disconnect, hc, hcfg, hd, hfail]

/-- Witness for C9: a concrete manager whose driver's `disconnect` throws.
`disconnect` still resolves with the state unchanged, so the connection is
still connected and its client still cached afterwards. -/
theorem C9_witness :
    (assocGet (DatabaseManager.clients
        { defaultConnection := "db",
          connections := [("db", { driver := "prisma" })],
          clients := [("db", .vNull)],
          connectedClients := ["db"],
          drivers := [("prisma", { createClient := fun _ _ => .ok .vNull,
                                   disconnect := fun _ => .error (.vStr "boom") })] })
        "db" = some .vNull) ∧
    DatabaseManager.disconnect
        { defaultConnection := "db",
          connections := [("db", { driver := "prisma" })],
          clients := [("db", .vNull)],
          connectedClients := ["db"],
          drivers := [("prisma", { createClient := fun _ _ => .ok .vNull,
                                   disconnect := fun _ => .error (.vStr "boom") })] }
        none =
      .ok { defaultConnection := "db",
            connections := [("db", { driver := "prisma" })],
            clients := [("db", .vNull)],
            connectedClients := ["db"],
            drivers := [("prisma", { createClient := fun _ _ => .ok .vNull,
                                     disconnect := fun _ => .error (.vStr "boom") })] } :=
  ⟨by rfl,
   C9_disconnect_swallows_errors
     { defaultConnection := "db",
       connections := [("db", { driver := "prisma" })],
       clients := [("db", .vNull)],
       connectedClients := ["db"],
       drivers := [("prisma", { createClient := fun _ _ => .ok .vNull,
                                disconnect := fun _ => .error (.vStr "boom") })] }
     none .vNull { driver := "prisma" }
     { createClient := fun _ _ => .ok .vNull, disconnect := fun _ => .error (.vStr "boom") }
     (.vStr "boom") (by rfl) (by rfl) (by rfl) (by rfl)⟩

theorem mem_addToSet (l : List String) (x : String) : x ∈ addToSet l x := by
  by_cases h : x ∈ l <;> simp [addToSet, h]

/-- C8: client creation is cached and idempotent — a cached client is
returned as-is with the state unchanged (independently of the drivers map,
so the driver's `createClient` cannot be involved); on a cache miss with a
configured connection and a successful driver creation, the client is
stored, the connection is marked connected, and a second call returns
the identical stored client without touching the state; `client`,
`prisma` and `drizzle` all route through this same `getOrCreateClient`. -/
theorem C8_client_cache_idempotent (s : DatabaseManager) (name : String) :
    (∀ c, assocGet s.clients name = some c → s.getOrCreateClient name = .ok (c, s)) ∧
    (∀ c ds, assocGet s.clients name = some c →
      DatabaseManager.getOrCreateClient { s with drivers := ds } name =
        .ok (c, { s with drivers := ds })) ∧
    (∀ cfg c, assocGet s.clients name = none →
      assocGet s.connections name = some cfg →
      s.createClient name cfg = .ok c →
      s.getOrCreateClient name =
          .ok (c, { s with clients := assocSet s.clients name c,
                           connectedClients := addToSet s.connectedClients name }) ∧
        assocGet (assocSet s.clients name c) name = some c ∧
        name ∈ addToSet s.connectedClients name ∧
        DatabaseManager.getOrCreateClient
            { s with clients := assocSet s.clients name c,
                     connectedClients := addToSet s.connectedClients name } name =
          .ok (c, { s with clients := assocSet s.clients name c,
                           connectedClients := addToSet s.connectedClients name })) ∧
    (∀ conn, s.client conn = s.getOrCreateClient (s.resolveName conn)) ∧
    (∀ conn cfg, assocGet s.connections (s.resolveName conn) = some cfg →
      cfg.driver = "prisma" →
      s.prisma conn = Except.map (fun p => (some p.1, p.2))
        (s.getOrCreateClient (s.resolveName conn))) ∧
    (∀ conn cfg, assocGet s.connections (s.resolveName conn) = some cfg →
      cfg.driver = "drizzle" →
      s.drizzle conn = Except.map (fun p => (some p.1, p.2))
        (s.getOrCreateClient (s.resolveName conn))) := by
  refine ⟨?_, ?_, ?_, ?_, ?_, ?_⟩
  · intro c hc; simp [DatabaseManager.getOrCreateClient, hc]
  · intro c ds hc; simp [DatabaseManager.getOrCreateClient, hc]
  · intro cfg c hnone hcfg hcreate
    refine ⟨?_, assocGet_assocSet_same s.clients name c, mem_addToSet s.connectedClients name, ?_⟩
    · simp [DatabaseManager.getOrCreateClient, hnone, hcfg, hcreate]
    · simp [DatabaseManager.getOrCreateClient, assocGet_assocSet_same]
  · intro conn; rfl
  · intro conn cfg hcfg hdrv
    simp only [DatabaseManager.prisma, hcfg, hdrv, if_true]
    cases hg : s.getOrCreateClient (s.resolveName conn) with
    | ok p => cases p; simp [hg, Except.map]
    | error er => simp [hg, Except.map]
  · intro conn cfg hcfg hdrv
    simp only [DatabaseManager.drizzle, hcfg, hdrv, if_true]
    cases hg : s.getOrCreateClient (s.resolveName conn) with
    | ok p => cases p; simp [hg, Except.map]
    | error er => simp [hg, Except.map]

/-- The resolved connection name has a configuration registered under the
given driver name. -/
def configuredWith (s : DatabaseManager) (name driverName : String) : Prop :=
  ∃ cfg, assocGet s.connections name = some cfg ∧ cfg.driver = driverName

/-- Claim C4 as stated, at one manager state and connection argument:
`prisma` returns a client exactly when the resolved connection is
configured with the `prisma` driver (and `null` otherwise), `drizzle`
likewise for the `drizzle` driver, and an omitted connection argument
resolves to the default connection. -/
def C4Holds (s : DatabaseManager) (conn : Option String) : Prop :=
  ((∃ c s2, s.prisma conn = .ok (some c, s2)) ↔
    configuredWith s (s.resolveName conn) "prisma") ∧
  (¬ configuredWith s (s.resolveName conn) "prisma" → s.prisma conn = .ok (none, s)) ∧
  ((∃ c s2, s.drizzle conn = .ok (some c, s2)) ↔
    configuredWith s (s.resolveName conn) "drizzle") ∧
  (¬ configuredWith s (s.resolveName conn) "drizzle" → s.drizzle conn = .ok (none, s)) ∧
  s.prisma none = s.prisma (some s.defaultConnection) ∧
  s.drizzle none = s.drizzle (some s.defaultConnection)

theorem resolveName_none_eq_default (s : DatabaseManager) :
    s.resolveName none = s.resolveName (some s.defaultConnection) := by
  by_cases h : s.defaultConnection = "" <;> simp [DatabaseManager.resolveName, h]

theorem prisma_eq (s : DatabaseManager) (conn : Option String) :
    s.prisma conn =
      (match assocGet s.connections (s.resolveName conn) with
       | none => .ok (none, s)
       | some cfg =>
         if cfg.driver = "prisma" then
           Except.map (fun p => (some p.1, p.2)) (s.getOrCreateClient (s.resolveName conn))
         else .ok (none, s)) := by
  simp only [DatabaseManager.prisma]
  cases h : assocGet s.connections (s.resolveName conn) with
  | none => rfl
  | some cfg =>
    by_cases hd : cfg.driver = "prisma"
    · simp only [hd, if_true]
      cases hg : s.getOrCreateClient (s.resolveName conn) with
      | ok p => cases p; simp [Except.map]
      | error er => simp [Except.map]
    · simp [hd]

theorem drizzle_eq (s : DatabaseManager) (conn : Option String) :
    s.drizzle conn =
      (match assocGet s.connections (s.resolveName conn) with
       | none => .ok (none, s)
       | some cfg =>
         if cfg.driver = "drizzle" then
           Except.map (fun p => (some p.1, p.2)) (s.getOrCreateClient (s.resolveName conn))
         else .ok (none, s)) := by
  simp only [DatabaseManager.drizzle]
  cases h : assocGet s.connections (s.resolveName conn) with
  | none => rfl
  | some cfg =>
    by_cases hd : cfg.driver = "drizzle"
    · simp only [hd, if_true]
      cases hg : s.getOrCreateClient (s.resolveName conn) with
      | ok p => cases p; simp [Except.map]
      | error er => simp [Except.map]
    · simp [hd]

/-- The manager used to refute C4 as stated: the default connection is
configured with the `prisma` driver, but the driver's `createClient`
throws, so `prisma()` neither returns a client nor `null` — it throws
`DatabaseClientCreationError`. -/
def failingPrismaManager : DatabaseManager :=
  { defaultConnection := "main",
    connections := [("main", { driver := "prisma" })],
    clients := [],
    connectedClients := [],
    drivers := [("prisma", { createClient := fun _ _ => .error (.vStr "connect refused"),
                             disconnect := fun _ => .ok () })] }

/-- Counterexample to C4 as stated: on `failingPrismaManager` the default
connection is configured with driver `prisma`, yet `prisma()` returns no
client (it throws), so the "returns a client if and only if" equivalence
fails. -/
theorem C4_counterexample : ¬ C4Holds failingPrismaManager none := by
  intro h
  have hconf : configuredWith failingPrismaManager
      (failingPrismaManager.resolveName none) "prisma" :=
    ⟨{ driver := "prisma" }, by rfl, rfl⟩
  rcases h.1.mpr hconf with ⟨c, s2, hcs⟩
  have hrun : failingPrismaManager.prisma none =
      .error (.clientCreationFailed "prisma" (.vStr "connect refused")) := by rfl
  rw [hrun] at hcs
  cases hcs

/-- C4, amended: `prisma(name)` returns `null` when no configuration named
`name` exists or its driver is not `prisma`; when the driver is `prisma`
it passes through to the cached-or-created client, so it returns a client
exactly when additionally the client cache or the driver yields one (and
throws otherwise); `drizzle` behaves symmetrically for the `drizzle`
driver; an omitted connection argument resolves to the default connection
name. -/
theorem C4_prisma_drizzle_amended (s : DatabaseManager) (conn : Option String) :
    (assocGet s.connections (s.resolveName conn) = none →
      s.prisma conn = .ok (none, s) ∧ s.drizzle conn = .ok (none, s)) ∧
    (∀ cfg, assocGet s.connections (s.resolveName conn) = some cfg →
      (cfg.driver ≠ "prisma" → s.prisma conn = .ok (none, s)) ∧
      (cfg.driver = "prisma" →
        s.prisma conn = Except.map (fun p => (some p.1, p.2))
          (s.getOrCreateClient (s.resolveName conn))) ∧
      (cfg.driver ≠ "drizzle" → s.drizzle conn = .ok (none, s)) ∧
      (cfg.driver = "drizzle" →
        s.drizzle conn = Except.map (fun p => (some p.1, p.2))
          (s.getOrCreateClient (s.resolveName conn)))) ∧
    ((∃ c s2, s.prisma conn = .ok (some c, s2)) ↔
      (configuredWith s (s.resolveName conn) "prisma" ∧
        ∃ c s2, s.getOrCreateClient (s.resolveName conn) = .ok (c, s2))) ∧
    ((∃ c s2, s.drizzle conn = .ok (some c, s2)) ↔
      (configuredWith s (s.resolveName conn) "drizzle" ∧
        ∃ c s2, s.getOrCreateClient (s.resolveName conn) = .ok (c, s2))) ∧
    s.prisma none = s.prisma (some s.defaultConnection) ∧
    s.drizzle none = s.drizzle (some s.defaultConnection) := by
  refine ⟨?_, ?_, ?_, ?_, ?_, ?_⟩
  · intro h
    rw [prisma_eq, drizzle_eq, h]
    exact ⟨rfl, rfl⟩
  · intro cfg h
    refine ⟨?_, ?_, ?_, ?_⟩
    · intro hne; rw [prisma_eq, h]; simp [hne]
    · intro heq; rw [prisma_eq, h]; simp [heq]
    · intro hne; rw [drizzle_eq, h]; simp [hne]
    · intro heq; rw [drizzle_eq, h]; simp [heq]
  · rw [prisma_eq]
    cases h : assocGet s.connections (s.resolveName conn) with
    | none =>
      simp only [configuredWith, h]
      constructor
      · rintro ⟨c, s2, hcs⟩; cases hcs
      · rintro ⟨⟨cfg, hcfg, _⟩, _⟩; cases hcfg
    | some cfg =>
      by_cases hd : cfg.driver = "prisma"
      · simp only [hd, if_true]
        constructor
        · rintro ⟨c, s2, hcs⟩
          cases hg : s.getOrCreateClient (s.resolveName conn) with
          | ok p =>
            refine ⟨⟨cfg, h, hd⟩, p.1, p.2, by simp [hg]⟩
          | error er => rw [hg] at hcs; cases hcs
        · rintro ⟨-, c, s2, hg⟩
          exact ⟨c, s2, by rw [hg]; rfl⟩
      · simp only [hd, if_false]
        constructor
        · rintro ⟨c, s2, hcs⟩; cases hcs
        · rintro ⟨⟨cfg2, hcfg2, hdrv2⟩, -⟩
          rw [h] at hcfg2
          cases hcfg2
          exact absurd hdrv2 hd
  · rw [drizzle_eq]
    cases h : assocGet s.connections (s.resolveName conn) with
    | none =>
      simp only [configuredWith, h]
      constructor
      · rintro ⟨c, s2, hcs⟩; cases hcs
      · rintro ⟨⟨cfg, hcfg, _⟩, _⟩; cases hcfg
    | some cfg =>
      by_cases hd : cfg.driver = "drizzle"
      · simp only [hd, if_true]
        constructor
        · rintro ⟨c, s2, hcs⟩
          cases hg : s.getOrCreateClient (s.resolveName conn) with
          | ok p =>
            refine ⟨⟨cfg, h, hd⟩, p.1, p.2, by simp [hg]⟩
          | error er => rw [hg] at hcs; cases hcs
        · rintro ⟨-, c, s2, hg⟩
          exact ⟨c, s2, by rw [hg]; rfl⟩
      · simp only [hd, if_false]
        constructor
        · rintro ⟨c, s2, hcs⟩; cases hcs
        · rintro ⟨⟨cfg2, hcfg2, hdrv2⟩, -⟩
          rw [h] at hcfg2
          cases hcfg2
          exact absurd hdrv2 hd
  · rw [prisma_eq, prisma_eq, resolveName_none_eq_default]
  · rw [drizzle_eq, drizzle_eq, resolveName_none_eq_default]

/-- A concrete manager with a working `prisma` connection `main` and a
working `drizzle` connection `analytics`. -/
def healthyManager : DatabaseManager :=
  { defaultConnection := "main",
    connections := [("main", { driver := "prisma" }),
                    ("analytics", { driver := "drizzle" })],
    clients := [],
    connectedClients := [],
    drivers := [("prisma", { createClient := fun _ _ => .ok (.vStr "prisma-client"),
                             disconnect := fun _ => .ok () }),
                ("drizzle", { createClient := fun _ _ => .ok (.vStr "drizzle-client"),
                              disconnect := fun _ => .ok () })] }

/-- Witness for the amended C4: on `healthyManager` the default connection
is configured with driver `prisma`, and `prisma()` passes through to the
cached-or-created client, while `drizzle()` on the same connection returns
`null`. -/
theorem C4_witness :
    (assocGet healthyManager.connections (healthyManager.resolveName none) =
        some { driver := "prisma" } ∧
      healthyManager.prisma none =
        Except.map (fun p => (some p.1, p.2))
          (healthyManager.getOrCreateClient (healthyManager.resolveName none))) ∧
    (ConnectionConfig.driver { driver := "prisma" } ≠ "drizzle" ∧
      healthyManager.drizzle none = .ok (none, healthyManager)) :=
  ⟨⟨by rfl,
    ((C4_prisma_drizzle_amended healthyManager none).2.1 { driver := "prisma" }
      (by rfl)).2.1 (by rfl)⟩,
   ⟨by simp,
    ((C4_prisma_drizzle_amended healthyManager none).2.1 { driver := "prisma" }
      (by rfl)).2.2.1 (by simp)⟩⟩

/-- Witness for C8 on `healthyManager`: the first resolution of `main`
creates and stores the client and marks the connection connected, and the
second resolution returns the identical stored client with the state
unchanged. -/
theorem C8_witness :
    (assocGet healthyManager.clients "main" = none ∧
      assocGet healthyManager.connections "main" = some { driver := "prisma" } ∧
      healthyManager.createClient "main" { driver := "prisma" } =
        .ok (.vStr "prisma-client")) ∧
    (healthyManager.getOrCreateClient "main" =
        .ok (.vStr "prisma-client",
          { healthyManager with
              clients := assocSet healthyManager.clients "main" (.vStr "prisma-client"),
              connectedClients := addToSet healthyManager.connectedClients "main" }) ∧
      assocGet (assocSet healthyManager.clients "main" (.vStr "prisma-client")) "main" =
        some (.vStr "prisma-client") ∧
      "main" ∈ addToSet healthyManager.connectedClients "main" ∧
      DatabaseManager.getOrCreateClient
          { healthyManager with
              clients := assocSet healthyManager.clients "main" (.vStr "prisma-client"),
              connectedClients := addToSet healthyManager.connectedClients "main" } "main" =
        .ok (.vStr "prisma-client",
          { healthyManager with
              clients := assocSet healthyManager.clients "main" (.vStr "prisma-client"),
              connectedClients := addToSet healthyManager.connectedClients "main" })) :=
  ⟨⟨by rfl, by rfl, by rfl⟩,
   (C8_client_cache_idempotent healthyManager "main").2.2.1 { driver := "prisma" }
     (.vStr "prisma-client") (by rfl) (by rfl) (by rfl)⟩

/-- The member names that `toProblemDetails` itself writes before copying
the `details` payload into the object. -/
def reservedProblemKeys : List String :=
  ["type", "title", "status", "detail", "instance", "code", "timestamp"]

/-- Claim C1 as stated, at one error: the conversion yields `type` equal to
the typeUri (default when none was given), `title` the code, `status` the
mapped HTTP status, `detail` the message, plus `code` and `timestamp`
extension members, and `instance` whenever one was set — uniformly in the
details payload. -/
def C1Holds (e : FrourioFrameworkErrorData) : Prop :=
  assocGet (toProblemDetails e) "type" =
    some (.vStr (match e.typeUri with | some t => t | none => DEFAULT_PROBLEM_TYPE)) ∧
  assocGet (toProblemDetails e) "title" = some (.vStr (errorCodeName e.code)) ∧
  assocGet (toProblemDetails e) "status" =
    some (.vNum (ErrorCodeToHttpStatus e.code : Nat)) ∧
  assocGet (toProblemDetails e) "detail" = some (.vStr e.message) ∧
  assocGet (toProblemDetails e) "code" = some (.vStr (errorCodeName e.code)) ∧
  assocGet (toProblemDetails e) "timestamp" = some (.vStr e.timestampIso) ∧
  (∀ i, e.instanceVal = some i →
    assocGet (toProblemDetails e) "instance" = some (.vStr i))

/-- The error used to refute C1 as stated: its `details` payload carries a
`detail` key, which `toProblemDetails` copies over the standard `detail`
member. -/
def overridingDetailsError : FrourioFrameworkErrorData :=
  { message := "resource missing", code := .NOT_FOUND,
    details := some [("detail", .vStr "overridden detail")] }

/-- Counterexample to C1 as stated: the conversion is not uniform in the
details payload — a `detail` entry in `details` replaces the standard
`detail` member, which no longer equals the error message. -/
theorem C1_counterexample : ¬ C1Holds overridingDetailsError := by
  intro h
  have hdetail := h.2.2.2.1
  have hrun : assocGet (toProblemDetails overridingDetailsError) "detail" =
      some (.vStr "overridden detail") := by rfl
  rw [hrun] at hdetail
  simp [overridingDetailsError] at hdetail

theorem toProblemDetails_reserved_get (e : FrourioFrameworkErrorData) (k : String)
    (hk : k ∈ reservedProblemKeys)
    (hd : ∀ p ∈ e.details.getD [], p.1 ∉ reservedProblemKeys) :
    assocGet (toProblemDetails e) k = assocGet (problemCore e) k := by
  cases hdet : e.details with
  | none => simp [toProblemDetails, hdet]
  | some ds =>
    simp only [toProblemDetails, hdet]
    refine assocGet_assignAll_not_mem ds (problemCore e) k (fun p hp heq => ?_)
    exact (hd p (by simp [hdet, hp])) (heq ▸ hk)

/-- C1, amended: for every framework error whose `details` payload avoids
the member names the conversion itself writes, `toProblemDetails` yields
`type` equal to the typeUri when that is a non-empty string (the default
problem type otherwise), `title` and the `code` extension member equal to
the error code, `status` the mapped HTTP status, `detail` the message, the
ISO `timestamp` extension member, and `instance` exactly when the instance
was set to a non-empty string. -/
theorem C1_toProblemDetails_amended (e : FrourioFrameworkErrorData)
    (hd : ∀ p ∈ e.details.getD [], p.1 ∉ reservedProblemKeys) :
    assocGet (toProblemDetails e) "type" =
      some (.vStr (strOr e.typeUri DEFAULT_PROBLEM_TYPE)) ∧
    assocGet (toProblemDetails e) "title" = some (.vStr (errorCodeName e.code)) ∧
    assocGet (toProblemDetails e) "status" =
      some (.vNum (ErrorCodeToHttpStatus e.code : Nat)) ∧
    assocGet (toProblemDetails e) "detail" = some (.vStr e.message) ∧
    assocGet (toProblemDetails e) "code" = some (.vStr (errorCodeName e.code)) ∧
    assocGet (toProblemDetails e) "timestamp" = some (.vStr e.timestampIso) ∧
    (∀ i, e.instanceVal = some i → i ≠ "" →
      assocGet (toProblemDetails e) "instance" = some (.vStr i)) ∧
    ((e.instanceVal = none ∨ e.instanceVal = some "") →
      assocGet (toProblemDetails e) "instance" = none) := by
  have htype := toProblemDetails_reserved_get e "type" (by simp [reservedProblemKeys]) hd
  have htitle := toProblemDetails_reserved_get e "title" (by simp [reservedProblemKeys]) hd
  have hstatus := toProblemDetails_reserved_get e "status" (by simp [reservedProblemKeys]) hd
  have hdetail := toProblemDetails_reserved_get e "detail" (by simp [reservedProblemKeys]) hd
  have hcode := toProblemDetails_reserved_get e "code" (by simp [reservedProblemKeys]) hd
  have hts := toProblemDetails_reserved_get e "timestamp" (by simp [reservedProblemKeys]) hd
  have hinst := toProblemDetails_reserved_get e "instance" (by simp [reservedProblemKeys]) hd
  refine ⟨?_, ?_, ?_, ?_, ?_, ?_, ?_, ?_⟩
  · rw [htype]
    cases hi : e.instanceVal with
    | none =>
      simp [problemCore, problemWithInstance, problemBase, hi, assocSet, assocGet,
        httpStatusCode]
    | some i =>
      by_cases hie : i = "" <;>
        simp [problemCore, problemWithInstance, problemBase, hi, hie, assocSet, assocGet,
          httpStatusCode]
  · rw [htitle]
    cases hi : e.instanceVal with
    | none =>
      simp [problemCore, problemWithInstance, problemBase, hi, assocSet, assocGet]
    | some i =>
      by_cases hie : i = "" <;>
        simp [problemCore, problemWithInstance, problemBase, hi, hie, assocSet, assocGet]
  · rw [hstatus]
    cases hi : e.instanceVal with
    | none =>
      simp [problemCore, problemWithInstance, problemBase, hi, assocSet, assocGet,
        httpStatusCode]
    | some i =>
      by_cases hie : i = "" <;>
        simp [problemCore, problemWithInstance, problemBase, hi, hie, assocSet, assocGet,
          httpStatusCode]
  · rw [hdetail]
    cases hi : e.instanceVal with
    | none =>
      simp [problemCore, problemWithInstance, problemBase, hi, assocSet, assocGet]
    | some i =>
      by_cases hie : i = "" <;>
        simp [problemCore, problemWithInstance, problemBase, hi, hie, assocSet, assocGet]
  · rw [hcode]
    cases hi : e.instanceVal with
    | none =>
      simp [problemCore, problemWithInstance, problemBase, hi, assocSet, assocGet]
    | some i =>
      by_cases hie : i = "" <;>
        simp [problemCore, problemWithInstance, problemBase, hi, hie, assocSet, assocGet]
  · rw [hts]
    cases hi : e.instanceVal with
    | none =>
      simp [problemCore, problemWithInstance, problemBase, hi, assocSet, assocGet]
    | some i =>
      by_cases hie : i = "" <;>
        simp [problemCore, problemWithInstance, problemBase, hi, hie, assocSet, assocGet]
  · intro i hi hie
    rw [hinst]
    simp [problemCore, problemWithInstance, problemBase, hi, hie, assocSet, assocGet]
  · intro hi
    rw [hinst]
    rcases hi with hi | hi <;>
      simp [problemCore, problemWithInstance, problemBase, hi, assocSet, assocGet]

/-- Witness for the amended C1 on a concrete error with a collision-free
details payload, a non-empty instance and a typeUri. -/
theorem C1_witness :
    (∀ p ∈ (FrourioFrameworkErrorData.details
        { message := "user not found", code := .USER_NOT_FOUND,
          details := some [("userId", .vStr "42")],
          instanceVal := some "urn:users:42",
          typeUri := some "urn:frourio:errors:user",
          timestampIso := "2026-10-11T00:00:00.000Z" }).getD [],
      p.1 ∉ reservedProblemKeys) ∧
    assocGet (toProblemDetails
        { message := "user not found", code := .USER_NOT_FOUND,
          details := some [("userId", .vStr "42")],
          instanceVal := some "urn:users:42",
          typeUri := some "urn:frourio:errors:user",
          timestampIso := "2026-10-11T00:00:00.000Z" }) "type" =
      some (.vStr (strOr (some "urn:frourio:errors:user") DEFAULT_PROBLEM_TYPE)) :=
  ⟨by decide,
   (C1_toProblemDetails_amended
      { message := "user not found", code := .USER_NOT_FOUND,
        details := some [("userId", .vStr "42")],
        instanceVal := some "urn:users:42",
        typeUri := some "urn:frourio:errors:user",
        timestampIso := "2026-10-11T00:00:00.000Z" } (by decide)).1⟩

/-- The status the claim expects for a given error value: the mapped HTTP
status for a framework error, and 500 for everything else. -/
def mappedStatusOf : ErrValue → Nat
  | .frameworkError fe => ErrorCodeToHttpStatus fe.code
  | .jsError _ _ => 500
  | .otherValue _ => 500

/-- A framework error whose `details` payload does not overwrite the
`status` member (other error values always satisfy this). -/
def detailsSafe : ErrValue → Prop
  | .frameworkError fe => ∀ p ∈ fe.details.getD [], p.1 ≠ "status"
  | .jsError _ _ => True
  | .otherValue _ => True

/-- Claim C3 at one error value and one response: the body carries the
four standard Problem Details members, the response status equals the
body's `status` member, and that status is the framework error's mapped
status (500 for any other error value). -/
def C3Holds (e : ErrValue) (r : HttpResponse) : Prop :=
  assocHas r.body "type" = true ∧
  assocHas r.body "title" = true ∧
  assocHas r.body "status" = true ∧
  assocHas r.body "detail" = true ∧
  assocGet r.body "status" = some r.status ∧
  r.status = .vNum (mappedStatusOf e : Nat)

/-- The error value used to refute C3 as stated: a framework error whose
`details` payload overwrites `status` with 200. -/
def statusOverridingError : ErrValue :=
  .frameworkError
    { message := "resource missing", code := .NOT_FOUND,
      details := some [("status", .vNum 200)] }

/-- Counterexample to C3 as stated: `ApiResponse.error` on a framework
error whose details overwrite `status` responds with status 200, not the
mapped 404. -/
theorem C3_counterexample :
    ¬ C3Holds statusOverridingError (ApiResponse_error statusOverridingError) := by
  intro h
  have h6 := h.2.2.2.2.2
  have hrun : (ApiResponse_error statusOverridingError).status = .vNum 200 := by rfl
  rw [hrun] at h6
  simp [mappedStatusOf, statusOverridingError, ErrorCodeToHttpStatus] at h6

theorem toProblemDetails_has_base (fe : FrourioFrameworkErrorData) (k : String)
    (hk : assocHas (problemBase fe) k = true) :
    assocHas (toProblemDetails fe) k = true := by
  have h1 : assocHas (problemWithInstance fe) k = true := by
    cases hi : fe.instanceVal with
    | none => simpa [problemWithInstance, hi] using hk
    | some i =>
      by_cases hie : i = ""
      · simpa [problemWithInstance, hi, hie] using hk
      · simp only [problemWithInstance, hi, hie, if_false]
        exact assocHas_assocSet _ _ _ _ hk
  have h2 : assocHas (problemCore fe) k = true :=
    assocHas_assocSet _ _ _ _ (assocHas_assocSet _ _ _ _ h1)
  cases hdet : fe.details with
  | none => simpa [toProblemDetails, hdet] using h2
  | some ds => simpa [toProblemDetails, hdet] using assocHas_assignAll ds _ k h2

theorem toProblemDetails_status_safe (fe : FrourioFrameworkErrorData)
    (h : ∀ p ∈ fe.details.getD [], p.1 ≠ "status") :
    assocGet (toProblemDetails fe) "status" =
      some (.vNum (ErrorCodeToHttpStatus fe.code : Nat)) := by
  have hcore : assocGet (toProblemDetails fe) "status" =
      assocGet (problemCore fe) "status" := by
    cases hdet : fe.details with
    | none => simp [toProblemDetails, hdet]
    | some ds =>
      simp only [toProblemDetails, hdet]
      exact assocGet_assignAll_not_mem ds _ _ (fun p hp => h p (by simp [hdet, hp]))
  rw [hcore]
  cases hi : fe.instanceVal with
  | none =>
    simp [problemCore, problemWithInstance, problemBase, hi, assocSet, assocGet,
      httpStatusCode]
  | some i =>
    by_cases hie : i = "" <;>
      simp [problemCore, problemWithInstance, problemBase, hi, hie, assocSet, assocGet,
        httpStatusCode]

theorem returnProblemDetails_safe (e : ErrValue) (d : Nat) (h : detailsSafe e) :
    C3Holds e (returnProblemDetails e d) := by
  cases e with
  | frameworkError fe =>
    have hsafe : ∀ p ∈ fe.details.getD [], p.1 ≠ "status" := h
    have hstatus := toProblemDetails_status_safe fe hsafe
    have hbody : (returnProblemDetails (.frameworkError fe) d).body =
        toProblemDetails fe := rfl
    have hst : (returnProblemDetails (.frameworkError fe) d).status =
        .vNum (ErrorCodeToHttpStatus fe.code : Nat) := by
      simp [returnProblemDetails, errorToProblemDetails, hstatus, isNullish]
    refine ⟨?_, ?_, ?_, ?_, ?_, ?_⟩
    · exact toProblemDetails_has_base fe "type" (by simp [problemBase, assocHas, assocGet])
    · exact toProblemDetails_has_base fe "title" (by simp [problemBase, assocHas, assocGet])
    · exact toProblemDetails_has_base fe "status" (by simp [problemBase, assocHas, assocGet])
    · exact toProblemDetails_has_base fe "detail" (by simp [problemBase, assocHas, assocGet])
    · rw [hbody, hst, hstatus]
    · rw [hst]; rfl
  | jsError nm msg =>
    refine ⟨?_, ?_, ?_, ?_, ?_, ?_⟩ <;>
      simp [returnProblemDetails, errorToProblemDetails, createProblemDetails, strOr,
        assignAll, assocSet, assocGet, assocHas, isNullish, mappedStatusOf]
  | otherValue v =>
    refine ⟨?_, ?_, ?_, ?_, ?_, ?_⟩ <;>
      simp [returnProblemDetails, errorToProblemDetails, createProblemDetails, strOr,
        assignAll, assocSet, assocGet, assocHas, isNullish, mappedStatusOf]

/-- C3, amended: for every error value — provided that, when it is a
framework error, its `details` payload does not overwrite the `status`
member — `ApiResponse.error` and every `ApiResponse.method` handler
return a body carrying the four standard Problem Details members, with
the response's HTTP status equal to the body's `status` member: the
framework error's mapped status, and 500 for any other `Error` or
non-`Error` value. -/
theorem C3_problemDetails_amended (e : ErrValue) (h : detailsSafe e) :
    C3Holds e (ApiResponse_error e) ∧
    C3Holds e (returnGetError e) ∧
    C3Holds e (returnPostError e) ∧
    C3Holds e (returnPutError e) ∧
    C3Holds e (returnPatchError e) ∧
    C3Holds e (returnDeleteError e) :=
  ⟨returnProblemDetails_safe e 500 h, returnProblemDetails_safe e 404 h,
   returnProblemDetails_safe e 500 h, returnProblemDetails_safe e 500 h,
   returnProblemDetails_safe e 403 h, returnProblemDetails_safe e 500 h⟩

/-- Witness for the amended C3: a plain JS `TypeError` (trivially safe)
yields a fully-formed Problem Details response with status 500 through
`ApiResponse.error` and all method handlers. -/
theorem C3_witness :
    detailsSafe (.jsError "TypeError" "boom") ∧
    (C3Holds (.jsError "TypeError" "boom")
        (ApiResponse_error (.jsError "TypeError" "boom")) ∧
      C3Holds (.jsError "TypeError" "boom")
        (returnGetError (.jsError "TypeError" "boom")) ∧
      C3Holds (.jsError "TypeError" "boom")
        (returnPostError (.jsError "TypeError" "boom")) ∧
      C3Holds (.jsError "TypeError" "boom")
        (returnPutError (.jsError "TypeError" "boom")) ∧
      C3Holds (.jsError "TypeError" "boom")
        (returnPatchError (.jsError "TypeError" "boom")) ∧
      C3Holds (.jsError "TypeError" "boom")
        (returnDeleteError (.jsError "TypeError" "boom"))) :=
  ⟨trivial, C3_problemDetails_amended (.jsError "TypeError" "boom") trivial⟩
